import Mathlib

/-!
# Verification of the demand-forecasting core (`prophet_service.py`)

Shallow embedding of the fallback forecasting path of
`src/backend/app/prophet_service.py` (class `ProphetForecastService`):
`prepare_data`, `forecast`, `_forecast_holt_winters`,
`_forecast_simple_exponential` and `_calculate_metrics`.

Modelling conventions:
* Python floats are modelled as exact rationals (`ℚ`).  Consequently the
  NaN/Infinity guards in the source (`np.isnan` / `np.isinf` checks) can
  never fire in the model — over exact arithmetic the guarded quantities
  are always finite — and are noted in comments where they occur.
* `np.sqrt` (used for the horizon factor, `np.std` and RMSE) is
  irrational-valued, so every definition that needs it is parametrised by
  a function `S : ℚ → ℚ` standing for square root; theorems assume of `S`
  only the order facts actually used (nonnegativity on nonnegative
  arguments, monotonicity), which the real square root satisfies.
* Python's `round` (and numpy's) rounds half to even; `pyRound` models it.
* The data classes `HistoricalDataPoint`, `ProphetParameters`,
  `ConfidenceInterval`, `ForecastMetrics` come from `app/models.py`, which
  is not part of the sources; their field lists are modelled from the
  spec's data model (section 3).
-/

/-- Model of Python's `round` on a real (here: rational) argument:
round half to even, returning an integer.  The fractional part of `x`
is below / above / exactly one half according as `2x` compares with
`2⌊x⌋ + 1`. -/
def pyRound (x : ℚ) : ℤ :=
  if 2 * x < 2 * (⌊x⌋ : ℚ) + 1 then ⌊x⌋
  else if 2 * (⌊x⌋ : ℚ) + 1 < 2 * x then ⌊x⌋ + 1
  else if ⌊x⌋ % 2 = 0 then ⌊x⌋ else ⌊x⌋ + 1

/-- Model of `np.mean` on a list of floats.  On the empty list numpy
returns NaN; the model returns `0` (division by zero in `ℚ`), but the
pipeline never takes the mean of an empty list. -/
def listMean (l : List ℚ) : ℚ := l.sum / (l.length : ℚ)

/-- Modelled from the spec: `ForecastParameters` (section 3), the field
list of `ProphetParameters` from the missing `app/models.py`. -/
structure ProphetParameters where
  growth : String
  seasonality_mode : String
  yearly_seasonality : Bool
  weekly_seasonality : Bool
  changepoint_prior_scale : ℚ
  seasonality_prior_scale : ℚ
  interval_width : ℚ
  deriving DecidableEq, Repr

/-- Modelled from the spec: a raw input point (period string, quantity)
from the missing `app/models.py`. -/
structure HistoricalDataPoint where
  month : String
  quantity : ℚ
  deriving DecidableEq, Repr

/-- Modelled from the spec: one (lower, upper) confidence bound pair.
The fallback code always stores `max(0, int(round(...)))`, an integer. -/
structure ConfidenceInterval where
  lower : ℤ
  upper : ℤ
  deriving DecidableEq, Repr

/-- Modelled from the spec: the accuracy metrics record; `mape` is
absent (`None`) when every in-sample actual is zero. -/
structure ForecastMetrics where
  mape : Option ℚ
  rmse : ℚ
  mae : ℚ
  deriving DecidableEq, Repr

/-- Errors surfaced by the engine (spec section 7): `MalformedPeriod`
is the `ValueError` escaping the `strptime` calls in `prepare_data`;
`InsufficientData` is the `ValueError` raised by `forecast` when fewer
than 2 rows exist. -/
inductive ForecastError where
  | malformedPeriod
  | insufficientData
  deriving DecidableEq, Repr

/-! ## Period-string parsing (`prepare_data`, lines 55-79)

`datetime.strptime` compiles the format to a regex; `%Y` matches exactly
four digits, `%m` matches `1[0-2]|0[1-9]|[1-9]` and `%d` matches
`3[01]|[12]\d|0[1-9]|[1-9]`, alternatives tried in that order with
backtracking, and the whole string must be consumed.  The resulting
(year, month, day) must also satisfy the `datetime` constructor's range
checks (year at least 1, day at most the length of the month). -/

/-- Numeric value of a digit character. -/
def digVal (c : Char) : ℕ := c.toNat - 48

/-- strptime `%Y`: exactly four digits. -/
def parseYear : List Char → Option (ℕ × List Char)
  | a :: b :: c :: d :: rest =>
    if a.isDigit && b.isDigit && c.isDigit && d.isDigit then
      some (1000 * digVal a + 100 * digVal b + 10 * digVal c + digVal d, rest)
    else none
  | _ => none

/-- Literal `-` in the format string. -/
def parseDash : List Char → Option (List Char)
  | '-' :: rest => some rest
  | _ => none

/-- strptime `%m` alternatives `1[0-2] | 0[1-9] | [1-9]`, in regex
order, each with the remaining input. -/
def monthAlts (cs : List Char) : List (ℕ × List Char) :=
  (match cs with
   | a :: b :: rest =>
     (if a = '1' && (b = '0' || b = '1' || b = '2') then
        [(10 + digVal b, rest)] else []) ++
     (if a = '0' && b.isDigit && b != '0' then [(digVal b, rest)] else [])
   | _ => []) ++
  (match cs with
   | a :: rest => if a.isDigit && a != '0' then [(digVal a, rest)] else []
   | _ => [])

/-- strptime `%d` alternatives `3[01] | [12]\d | 0[1-9] | [1-9]`, in
regex order. -/
def dayAlts (cs : List Char) : List (ℕ × List Char) :=
  (match cs with
   | a :: b :: rest =>
     (if a = '3' && (b = '0' || b = '1') then [(30 + digVal b, rest)] else []) ++
     (if (a = '1' || a = '2') && b.isDigit then
        [(10 * digVal a + digVal b, rest)] else []) ++
     (if a = '0' && b.isDigit && b != '0' then [(digVal b, rest)] else [])
   | _ => []) ++
  (match cs with
   | a :: rest => if a.isDigit && a != '0' then [(digVal a, rest)] else []
   | _ => [])

/-- Regex backtracking: try each alternative in order, keeping the first
one whose continuation succeeds. -/
def tryAlts {β : Type} : List (ℕ × List Char) → (ℕ → List Char → Option β) → Option β
  | [], _ => none
  | (a, rest) :: more, k =>
    match k a rest with
    | some b => some b
    | none => tryAlts more k

/-- Whether a year is a Gregorian leap year (`calendar.isleap`). -/
def isLeap (y : ℕ) : Bool := y % 4 = 0 && (y % 100 != 0 || y % 400 = 0)

/-- Number of days in a month, as validated by the `datetime`
constructor. -/
def daysInMonth (y m : ℕ) : ℕ :=
  if m = 2 then (if isLeap y then 29 else 28)
  else if m = 4 || m = 6 || m = 9 || m = 11 then 30
  else 31

/-- Encode a calendar date as a single sortable key. -/
def mkDateKey (y m d : ℕ) : ℕ := (y * 100 + m) * 100 + d

/-- Model of `datetime.strptime(s, "%Y-%m-%d")`: full-string match plus
the constructor's range validation. -/
def strptimeYMD (s : String) : Option ℕ :=
  (parseYear s.data).bind fun yr =>
    (parseDash yr.2).bind fun r1 =>
      tryAlts (monthAlts r1) fun m r2 =>
        (parseDash r2).bind fun r3 =>
          tryAlts (dayAlts r3) fun d r4 =>
            if r4 = [] && 1 ≤ yr.1 && d ≤ daysInMonth yr.1 m then
              some (mkDateKey yr.1 m d)
            else none

/-- Model of `datetime.strptime(s, "%Y-%m")`: day defaults to 1. -/
def strptimeYM (s : String) : Option ℕ :=
  (parseYear s.data).bind fun yr =>
    (parseDash yr.2).bind fun r1 =>
      tryAlts (monthAlts r1) fun m r2 =>
        if r2 = [] && 1 ≤ yr.1 then some (mkDateKey yr.1 m 1) else none

/-- The per-point parse of `prepare_data` (lines 63-69): first
`strptime(month + "-01", "%Y-%m-%d")`, and on `ValueError` the
alternative `strptime(month, "%Y-%m")`. -/
def parsePeriod (month : String) : Option ℕ :=
  match strptimeYMD (month ++ "-01") with
  | some k => some k
  | none => strptimeYM month

/-- The loop of `prepare_data` (lines 61-74): parse every point in
order, failing at the first malformed period, pairing the parsed date
with `float(point.quantity)`. -/
def parseRows : List HistoricalDataPoint → Option (List (ℕ × ℚ))
  | [] => some []
  | p :: rest =>
    match parsePeriod p.month with
    | none => none
    | some k => (parseRows rest).map (fun tl => (k, p.quantity) :: tl)

/-- Ordering of dataframe rows by the `ds` column. -/
def rowLe (a b : ℕ × ℚ) : Prop := a.1 ≤ b.1

instance : DecidableRel rowLe := fun a b => inferInstanceAs (Decidable (a.1 ≤ b.1))

instance : IsTotal (ℕ × ℚ) rowLe := ⟨fun a b => Nat.le_total a.1 b.1⟩

instance : IsTrans (ℕ × ℚ) rowLe := ⟨fun _ _ _ hab hbc => Nat.le_trans hab hbc⟩

/-- Model of `df.sort_values('ds')` (line 77): an ascending sort by the
date key.  (pandas uses quicksort; any deterministic comparison sort by
`ds` models it — no claim depends on the relative order of duplicate
periods, which the Series invariant excludes.) -/
def sortRows (rows : List (ℕ × ℚ)) : List (ℕ × ℚ) := List.insertionSort rowLe rows

/-- Model of `ProphetForecastService.prepare_data` (lines 55-79). -/
def prepare_data (data : List HistoricalDataPoint) : Except ForecastError (List (ℕ × ℚ)) :=
  match parseRows data with
  | none => .error .malformedPeriod
  | some rows => .ok (sortRows rows)

/-! ## Holt-Winters fallback (`_forecast_holt_winters`, lines 187-316) -/

/-- Internal smoothing state: level, trend and the per-phase seasonal
factors (spec section 3, `InternalState`). -/
structure HWState where
  level : ℚ
  trend : ℚ
  seasonal_factors : List ℚ
  deriving DecidableEq, Repr

/-- Seasonality combination mode (line 203): `'add' if seasonality_mode == 'additive' else 'mul'`, as a Boolean (`true` = additive). -/
def hwIsAdd (params : ProphetParameters) : Bool := params.seasonality_mode = "additive"

/-- Season length (line 206): 12 with yearly seasonality, else 1. -/
def hwSeasonLength (params : ProphetParameters) : ℕ :=
  if params.yearly_seasonality then 12 else 1

/-- Level coefficient (line 210): `alpha = min(0.8, 0.2 + changepoint_prior_scale)`. -/
def hwAlpha (params : ProphetParameters) : ℚ :=
  min (4/5) (1/5 + params.changepoint_prior_scale)

/-- Initial level (line 220): mean of the first `season_length` values. -/
def hwLevelInit (values : List ℚ) (L : ℕ) : ℚ := listMean (values.take L)

/-- Initial trend (lines 223-232): 0 for flat growth; otherwise the
difference of the means of `values[L:min(2L,n)]` and `values[:L]`
divided by `L` when `n > L`, else the simple slope
`(values[-1] - values[0]) / max(1, n - 1)`. -/
def hwTrendInit (values : List ℚ) (L : ℕ) (growth : String) : ℚ :=
  if growth = "flat" then 0
  else if L < values.length then
    (listMean ((values.drop L).take (min (2 * L) values.length - L)) -
      listMean (values.take L)) / (L : ℚ)
  else (values.getLastD 0 - values.headD 0) / ((max 1 (values.length - 1) : ℕ) : ℚ)

/-- Model of Python's `range(i, n, L)`. -/
def phaseIndices (i n L : ℕ) : List ℕ :=
  (List.range n).filter (fun j => i ≤ j && (j - i) % L = 0)

/-- Initial seasonal factors (lines 235-246): per-phase mean over level
(guarding `level > 0`), then normalization by the factors' mean when
that mean is positive. -/
def hwSeasonalInit (values : List ℚ) (L : ℕ) : List ℚ :=
  let level := hwLevelInit values L
  let n := values.length
  let raw := (List.range L).map (fun i =>
    let idxs := phaseIndices i n L
    if idxs.isEmpty then 1
    else if level > 0 then listMean (idxs.map (fun j => values.getD j 0)) / level
    else 1)
  let avg := listMean raw
  if avg > 0 then raw.map (fun s => s / avg) else raw

/-- One iteration of the fitting loop (lines 250-270) at history index
`i` with observation `v`: fitted value, then level, trend and seasonal
factor updates, in the source's order.  Returns the new state and the
fitted value. -/
def hwFitStep (isAdd : Bool) (alpha beta gamma : ℚ) (L : ℕ) (st : HWState)
    (i : ℕ) (v : ℚ) : HWState × ℚ :=
  let idx := i % L
  let sfi := st.seasonal_factors.getD idx 0
  let fitted := if isAdd then st.level + st.trend + sfi else (st.level + st.trend) * sfi
  let prev := st.level
  let level :=
    if ¬ isAdd ∧ sfi > 0 then alpha * (v / sfi) + (1 - alpha) * (st.level + st.trend)
    else alpha * (v - sfi) + (1 - alpha) * (st.level + st.trend)
  let trend := beta * (level - prev) + (1 - beta) * st.trend
  let sfNew :=
    if ¬ isAdd ∧ level > 0 then gamma * (v / level) + (1 - gamma) * sfi
    else gamma * (v - level) + (1 - gamma) * sfi
  (⟨level, trend, st.seasonal_factors.set idx sfNew⟩, fitted)

/-- The fitting loop (lines 249-270), folding `hwFitStep` over the
history from index `i0`, collecting the fitted values in order. -/
def hwFitLoop (isAdd : Bool) (alpha beta gamma : ℚ) (L : ℕ) :
    ℕ → List ℚ → HWState → HWState × List ℚ
  | _, [], st => (st, [])
  | i, v :: rest, st =>
    let r := hwFitStep isAdd alpha beta gamma L st i v
    let rec' := hwFitLoop isAdd alpha beta gamma L (i + 1) rest r.1
    (rec'.1, r.2 :: rec'.2)

/-- Initial state plus full fitting pass of `_forecast_holt_winters`
(lines 218-270): `beta = 0.1`, `gamma = 0.2` fixed. -/
def hwFitted (values : List ℚ) (params : ProphetParameters) : HWState × List ℚ :=
  let L := hwSeasonLength params
  hwFitLoop (hwIsAdd params) (hwAlpha params) (1/10) (1/5) L 0 values
    ⟨hwLevelInit values L, hwTrendInit values L params.growth, hwSeasonalInit values L⟩

/-- Forecast generation (lines 272-283) from the frozen state: step `i`
(0-indexed) extrapolates `trend * (i+1)` at phase `(n+i) % L`, rounds
and floors at 0.  The `np.isnan or np.isinf` substitution by `level`
cannot fire over exact rationals and is omitted. -/
def hwForecastValues (isAdd : Bool) (st : HWState) (n L periods : ℕ) : List ℤ :=
  (List.range periods).map (fun i =>
    let idx := (n + i) % L
    let sfi := st.seasonal_factors.getD idx 0
    let fc := if isAdd then st.level + st.trend * (i + 1 : ℕ) + sfi
              else (st.level + st.trend * (i + 1 : ℕ)) * sfi
    max 0 (pyRound fc))

/-- Model of `np.std` (population standard deviation): square root of
the mean squared deviation from the mean, with `S` standing for the
square root. -/
def populationStd (S : ℚ → ℚ) (l : List ℚ) : ℚ :=
  S (listMean (l.map (fun x => (x - listMean l) ^ 2)))

/-- Residual standard error (lines 287-288 and 342-343): `np.std` of
the residuals when more than one residual exists, else 0. -/
def stdError (S : ℚ → ℚ) (residuals : List ℚ) : ℚ :=
  if 1 < residuals.length then populationStd S residuals else 0

/-- The z-score table (lines 292-293 and 345-346): `z_map.get(interval_width, 1.96)`. -/
def zScore (w : ℚ) : ℚ :=
  if w = 1/2 then 337/500
  else if w = 17/25 then 1
  else if w = 4/5 then 32/25
  else if w = 9/10 then 329/200
  else if w = 19/20 then 49/25
  else if w = 99/100 then 322/125
  else 49/25

/-- Margin at 0-indexed forecast step `i` (lines 298-299 and 350-351):
`z_score * std_error * sqrt(i + 1)`, the 1-indexed horizon being `i+1`. -/
def horizonMargin (S : ℚ → ℚ) (z s : ℚ) (i : ℕ) : ℚ := z * s * S ((i + 1 : ℕ) : ℚ)

/-- The confidence-interval loop (lines 295-310, identically 348-357):
bounds `fc ∓ margin`, rounded and floored at 0.  The NaN substitutions
(`fc * 0.8` / `fc * 1.2`) cannot fire over exact rationals. -/
def mkIntervals (S : ℚ → ℚ) (z s : ℚ) (fv : List ℤ) : List ConfidenceInterval :=
  fv.enum.map (fun p =>
    let margin := horizonMargin S z s p.1
    ⟨max 0 (pyRound ((p.2 : ℚ) - margin)), max 0 (pyRound ((p.2 : ℚ) + margin))⟩)

/-- Model of `_calculate_metrics` (lines 362-384): `y_pred` truncated
to the length of `y_true`; MAE and RMSE over all pairs; MAPE over the
pairs with nonzero actual, `None` when there are none.  (numpy requires
the arrays to have equal length after truncation; `zip` models exactly
that case, the only one the pipeline produces.) -/
def calculateMetrics (S : ℚ → ℚ) (y_true y_pred0 : List ℚ) : ForecastMetrics :=
  let y_pred := y_pred0.take y_true.length
  let pairs := y_true.zip y_pred
  let mae := listMean (pairs.map (fun p => |p.1 - p.2|))
  let rmse := S (listMean (pairs.map (fun p => (p.1 - p.2) ^ 2)))
  let nz := pairs.filter (fun p => p.1 ≠ 0)
  let mape := if nz.isEmpty then none
              else some (listMean (nz.map (fun p => |(p.1 - p.2) / p.1|)) * 100)
  ⟨mape, rmse, mae⟩

/-- The combined result type of a forecast call: point forecasts,
confidence intervals, metrics. -/
abbrev ForecastResult := List ℤ × List ConfidenceInterval × Option ForecastMetrics

/-- The simple-exponential-smoothing recurrence (lines 329-335) over
the tail of the series: `level = alpha * v + (1 - alpha) * level`,
collecting fitted values.  Returns the final level and the fitted list. -/
def sesRec (alpha : ℚ) : List ℚ → ℚ → ℚ × List ℚ
  | [], level => (level, [])
  | v :: rest, level =>
    let lvl := alpha * v + (1 - alpha) * level
    let r := sesRec alpha rest lvl
    (r.1, lvl :: r.2)

/-- Initialization plus fit of `_forecast_simple_exponential` (lines
326-335): `level = values[0]`, `fitted_values = [level]`, then the
recurrence.  The empty-series case is unreachable (callers guarantee at
least 2 points; Python would fault on `values[0]`). -/
def sesFit (alpha : ℚ) (values : List ℚ) : ℚ × List ℚ :=
  match values with
  | [] => (0, [])
  | v :: rest =>
    let r := sesRec alpha rest v
    (r.1, v :: r.2)

/-- Model of `_forecast_simple_exponential` (lines 318-360).  The
`np.isnan(level)` fallback to the series mean cannot fire over exact
rationals. -/
def simpleExponential (S : ℚ → ℚ) (values : List ℚ) (periods : ℕ)
    (alpha interval_width : ℚ) : ForecastResult :=
  let r := sesFit alpha values
  let forecast_values := List.replicate periods (max 0 (pyRound r.1))
  let residuals := values.zipWith (fun a b => a - b) r.2
  let s := stdError S residuals
  let ci := mkIntervals S (zScore interval_width) s forecast_values
  (forecast_values, ci, some (calculateMetrics S values r.2))

/-- The body of `_forecast_holt_winters` for `n ≥ season_length`
(lines 218-316), assembled from the pieces above. -/
def holtWintersMain (S : ℚ → ℚ) (values : List ℚ) (periods : ℕ)
    (params : ProphetParameters) : ForecastResult :=
  let r := hwFitted values params
  let forecast_values := hwForecastValues (hwIsAdd params)
    r.1 values.length (hwSeasonLength params) periods
  let residuals := values.zipWith (fun a b => a - b) r.2
  let s := stdError S residuals
  let ci := mkIntervals S (zScore params.interval_width) s forecast_values
  (forecast_values, ci, some (calculateMetrics S values r.2))

/-- Model of `_forecast_holt_winters` (lines 187-316) including its
short-series delegation (lines 214-216) to
`_forecast_simple_exponential`. -/
def forecastHoltWinters (S : ℚ → ℚ) (values : List ℚ) (periods : ℕ)
    (params : ProphetParameters) : ForecastResult :=
  if values.length < hwSeasonLength params then
    simpleExponential S values periods (hwAlpha params) params.interval_width
  else holtWintersMain S values periods params

/-- The service's instance state: the attributes set in `__init__` and
read (never written) by `forecast`. -/
structure ServiceState where
  default_params : ProphetParameters
  use_prophet : Bool

/-- Model of `ProphetForecastService.forecast` (lines 81-113) with the
instance state passed explicitly and returned (the method only reads
it).  `prophetFn` stands for the external `_forecast_prophet` path, an
opaque collaborator (spec sections 1 and 6); the fallback path never
consults it. -/
def forecastM (S : ℚ → ℚ)
    (prophetFn : List (ℕ × ℚ) → ℕ → ProphetParameters → Except ForecastError ForecastResult)
    (svc : ServiceState) (data : List HistoricalDataPoint) (periods : ℕ)
    (parameters : Option ProphetParameters) :
    Except ForecastError ForecastResult × ServiceState :=
  let params := parameters.getD svc.default_params
  match prepare_data data with
  | .error e => (.error e, svc)
  | .ok df =>
    if df.length < 2 then (.error .insufficientData, svc)
    else if svc.use_prophet then (prophetFn df periods params, svc)
    else (.ok (forecastHoltWinters S (df.map Prod.snd) periods params), svc)

/-! ## General lemmas -/

/-- Decidable equality for `Except`, used to state concrete facts about
`prepare_data`. -/
instance {ε α : Type} [DecidableEq ε] [DecidableEq α] : DecidableEq (Except ε α) := fun
  | .ok a, .ok b => by
    cases h : decide (a = b) with
    | true => exact isTrue (by simp_all)
    | false => exact isFalse (by simp_all)
  | .ok _, .error _ => isFalse (by simp)
  | .error _, .ok _ => isFalse (by simp)
  | .error a, .error b => by
    cases h : decide (a = b) with
    | true => exact isTrue (by simp_all)
    | false => exact isFalse (by simp_all)

theorem le_pyRound (x : ℚ) : ⌊x⌋ ≤ pyRound x := by
  unfold pyRound; split_ifs <;> omega

theorem pyRound_le_add_one (x : ℚ) : pyRound x ≤ ⌊x⌋ + 1 := by
  unfold pyRound; split_ifs <;> omega

/-- Rounding half to even is monotone. -/
theorem pyRound_mono {x y : ℚ} (h : x ≤ y) : pyRound x ≤ pyRound y := by
  rcases lt_or_eq_of_le (Int.floor_mono h) with hf | hf
  · have h1 := pyRound_le_add_one x
    have h2 := le_pyRound y
    omega
  · have hfq : ((⌊x⌋ : ℤ) : ℚ) = ((⌊y⌋ : ℤ) : ℚ) := by exact_mod_cast hf
    unfold pyRound
    split_ifs <;> first | omega | linarith

theorem listMean_nonneg {l : List ℚ} (h : ∀ x ∈ l, 0 ≤ x) : 0 ≤ listMean l :=
  div_nonneg (List.sum_nonneg h) (Nat.cast_nonneg _)

theorem zScore_nonneg (w : ℚ) : 0 ≤ zScore w := by
  unfold zScore; split_ifs <;> norm_num

theorem stdError_nonneg (S : ℚ → ℚ) (hS : ∀ x, 0 ≤ x → 0 ≤ S x) (rs : List ℚ) :
    0 ≤ stdError S rs := by
  unfold stdError
  split_ifs
  · refine hS _ (listMean_nonneg ?_)
    intro x hx
    obtain ⟨a, _, rfl⟩ := List.mem_map.mp hx
    positivity
  · exact le_rfl

theorem length_mkIntervals (S : ℚ → ℚ) (z s : ℚ) (fv : List ℤ) :
    (mkIntervals S z s fv).length = fv.length := by
  simp [mkIntervals]

theorem mkIntervals_mem (S : ℚ → ℚ) (z s : ℚ) (fv : List ℤ)
    (hz : 0 ≤ z) (hs : 0 ≤ s) (hS : ∀ x, 0 ≤ x → 0 ≤ S x) :
    ∀ c ∈ mkIntervals S z s fv, 0 ≤ c.lower ∧ c.lower ≤ c.upper ∧ 0 ≤ c.upper := by
  intro c hc
  simp only [mkIntervals, List.mem_map] at hc
  obtain ⟨p, hp, rfl⟩ := hc
  have hsq : (0 : ℚ) ≤ ((p.1 + 1 : ℕ) : ℚ) := by positivity
  have hm : 0 ≤ horizonMargin S z s p.1 :=
    mul_nonneg (mul_nonneg hz hs) (hS _ hsq)
  exact ⟨le_max_left _ _, max_le_max le_rfl (pyRound_mono (by linarith)), le_max_left _ _⟩

theorem ses_fv_length (S : ℚ → ℚ) (v : List ℚ) (p : ℕ) (a w : ℚ) :
    (simpleExponential S v p a w).1.length = p := by
  simp [simpleExponential]

theorem ses_ci_length (S : ℚ → ℚ) (v : List ℚ) (p : ℕ) (a w : ℚ) :
    (simpleExponential S v p a w).2.1.length = p := by
  simp [simpleExponential, mkIntervals]

theorem ses_fv_nonneg (S : ℚ → ℚ) (v : List ℚ) (p : ℕ) (a w : ℚ) :
    ∀ x ∈ (simpleExponential S v p a w).1, 0 ≤ x := by
  intro x hx
  simp only [simpleExponential, List.mem_replicate] at hx
  rw [hx.2]
  exact le_max_left _ _

theorem ses_ci_bounds (S : ℚ → ℚ) (hS : ∀ x, 0 ≤ x → 0 ≤ S x) (v : List ℚ) (p : ℕ) (a w : ℚ) :
    ∀ c ∈ (simpleExponential S v p a w).2.1,
      0 ≤ c.lower ∧ c.lower ≤ c.upper ∧ 0 ≤ c.upper := by
  intro c hc
  simp only [simpleExponential] at hc
  exact mkIntervals_mem _ _ _ _ (zScore_nonneg w) (stdError_nonneg S hS _) hS c hc

theorem hw_fv_length (S : ℚ → ℚ) (v : List ℚ) (p : ℕ) (params : ProphetParameters) :
    (holtWintersMain S v p params).1.length = p := by
  simp [holtWintersMain, hwForecastValues]

theorem hw_ci_length (S : ℚ → ℚ) (v : List ℚ) (p : ℕ) (params : ProphetParameters) :
    (holtWintersMain S v p params).2.1.length = p := by
  simp [holtWintersMain, mkIntervals, hwForecastValues]

theorem hw_fv_nonneg (S : ℚ → ℚ) (v : List ℚ) (p : ℕ) (params : ProphetParameters) :
    ∀ x ∈ (holtWintersMain S v p params).1, 0 ≤ x := by
  intro x hx
  simp only [holtWintersMain, hwForecastValues, List.mem_map] at hx
  obtain ⟨i, _, rfl⟩ := hx
  exact le_max_left _ _

theorem hw_ci_bounds (S : ℚ → ℚ) (hS : ∀ x, 0 ≤ x → 0 ≤ S x) (v : List ℚ) (p : ℕ)
    (params : ProphetParameters) :
    ∀ c ∈ (holtWintersMain S v p params).2.1,
      0 ≤ c.lower ∧ c.lower ≤ c.upper ∧ 0 ≤ c.upper := by
  intro c hc
  simp only [holtWintersMain] at hc
  exact mkIntervals_mem _ _ _ _ (zScore_nonneg _) (stdError_nonneg S hS _) hS c hc

/-- Example square-root stand-in for witnesses: the identity function
satisfies every order hypothesis the theorems place on `S`
(nonnegativity on nonnegative arguments and monotonicity). -/
def idSqrt : ℚ → ℚ := fun x => x

/-- Example parameter set for witnesses. -/
def demoParams : ProphetParameters := ⟨"linear", "additive", true, false, 1/20, 10, 19/20⟩

/-- C1: for every valid series of length at least 2 and every horizon
at least 1, the fallback forecast (either branch) returns forecast
values and confidence intervals of length exactly `periods`, every
forecast value is nonnegative, and every interval satisfies
`0 ≤ lower ≤ upper`. -/
theorem fallback_result_invariants (S : ℚ → ℚ) (hS : ∀ x, 0 ≤ x → 0 ≤ S x)
    (values : List ℚ) (periods : ℕ) (params : ProphetParameters)
    (hlen : 2 ≤ values.length) (hper : 1 ≤ periods) :
    (forecastHoltWinters S values periods params).1.length = periods ∧
    (forecastHoltWinters S values periods params).2.1.length = periods ∧
    (∀ v ∈ (forecastHoltWinters S values periods params).1, 0 ≤ v) ∧
    (∀ c ∈ (forecastHoltWinters S values periods params).2.1,
      0 ≤ c.lower ∧ c.lower ≤ c.upper ∧ 0 ≤ c.upper) := by
  unfold forecastHoltWinters
  split_ifs with hbr
  · exact ⟨ses_fv_length S values periods _ _, ses_ci_length S values periods _ _,
      ses_fv_nonneg S values periods _ _, ses_ci_bounds S hS values periods _ _⟩
  · exact ⟨hw_fv_length S values periods params, hw_ci_length S values periods params,
      hw_fv_nonneg S values periods params, hw_ci_bounds S hS values periods params⟩

/-- Witness for C1 at a concrete input. -/
theorem fallback_result_invariants_witness :
    (∀ x : ℚ, 0 ≤ x → 0 ≤ idSqrt x) ∧ 2 ≤ ([1, 2] : List ℚ).length ∧ 1 ≤ 1 ∧
    ((forecastHoltWinters idSqrt [1, 2] 1 demoParams).1.length = 1 ∧
     (forecastHoltWinters idSqrt [1, 2] 1 demoParams).2.1.length = 1 ∧
     (∀ v ∈ (forecastHoltWinters idSqrt [1, 2] 1 demoParams).1, 0 ≤ v) ∧
     (∀ c ∈ (forecastHoltWinters idSqrt [1, 2] 1 demoParams).2.1,
       0 ≤ c.lower ∧ c.lower ≤ c.upper ∧ 0 ≤ c.upper)) :=
  ⟨fun _ h => h, by simp, le_rfl,
    fallback_result_invariants idSqrt (fun _ h => h) [1, 2] 1 demoParams (by simp) le_rfl⟩

/-- C7: under the `sqrt(h)` rule the interval margin is monotonically
nondecreasing in the horizon step: for any square root `S` (monotone on
nonnegative arguments), any configured interval width `w` and any
positive residual standard error `s`,
`margin(h) ≤ margin(h+1)` (0-indexed here: step `i` is horizon `i+1`). -/
theorem margin_monotone_in_horizon (S : ℚ → ℚ)
    (hmono : ∀ a b : ℚ, 0 ≤ a → a ≤ b → S a ≤ S b)
    (w s : ℚ) (hs : 0 < s) (i : ℕ) :
    horizonMargin S (zScore w) s i ≤ horizonMargin S (zScore w) s (i + 1) := by
  unfold horizonMargin
  have hz := zScore_nonneg w
  have h0 : (0 : ℚ) ≤ ((i + 1 : ℕ) : ℚ) := by positivity
  have h1 : ((i + 1 : ℕ) : ℚ) ≤ ((i + 1 + 1 : ℕ) : ℚ) := by push_cast; linarith
  exact mul_le_mul_of_nonneg_left (hmono _ _ h0 h1) (mul_nonneg hz hs.le)

/-- Witness for C7 at a concrete input. -/
theorem margin_monotone_in_horizon_witness :
    (∀ a b : ℚ, 0 ≤ a → a ≤ b → idSqrt a ≤ idSqrt b) ∧ (0 : ℚ) < 1 ∧
    horizonMargin idSqrt (zScore (1/2)) 1 0 ≤ horizonMargin idSqrt (zScore (1/2)) 1 1 :=
  ⟨fun _ _ _ h => h, by norm_num,
    margin_monotone_in_horizon idSqrt (fun _ _ _ h => h) (1/2) 1 (by norm_num) 0⟩

/-- C9: on the fallback path `forecast` is a stateless, pure function:
the result does not depend on the external-model adapter, the instance
state is returned unchanged, and an immediately repeated call (threading
the returned state) yields the identical result. -/
theorem forecast_stateless_deterministic (S : ℚ → ℚ)
    (pf pf' : List (ℕ × ℚ) → ℕ → ProphetParameters → Except ForecastError ForecastResult)
    (svc : ServiceState) (data : List HistoricalDataPoint) (periods : ℕ)
    (ps : Option ProphetParameters) (hfb : svc.use_prophet = false) :
    forecastM S pf svc data periods ps = forecastM S pf' svc data periods ps ∧
    (forecastM S pf svc data periods ps).2 = svc ∧
    forecastM S pf (forecastM S pf svc data periods ps).2 data periods ps =
      forecastM S pf svc data periods ps := by
  have hstate : (forecastM S pf svc data periods ps).2 = svc := by
    unfold forecastM
    rcases hpd : prepare_data data with e | df <;> simp [hpd] <;> split_ifs <;> rfl
  have heq : forecastM S pf svc data periods ps = forecastM S pf' svc data periods ps := by
    unfold forecastM
    rcases hpd : prepare_data data with e | df <;> simp [hpd, hfb]
  exact ⟨heq, hstate, by rw [hstate]⟩

/-- Witness for C9 at a concrete input. -/
theorem forecast_stateless_deterministic_witness :
    (ServiceState.mk demoParams false).use_prophet = false ∧
    (forecastM idSqrt (fun _ _ _ => .error .malformedPeriod) ⟨demoParams, false⟩
        [⟨"2024-01", 1⟩, ⟨"2024-02", 2⟩] 2 none =
      forecastM idSqrt (fun df _ _ => .ok ([], [], none)) ⟨demoParams, false⟩
        [⟨"2024-01", 1⟩, ⟨"2024-02", 2⟩] 2 none ∧
     (forecastM idSqrt (fun _ _ _ => .error .malformedPeriod) ⟨demoParams, false⟩
        [⟨"2024-01", 1⟩, ⟨"2024-02", 2⟩] 2 none).2 = ⟨demoParams, false⟩ ∧
     forecastM idSqrt (fun _ _ _ => .error .malformedPeriod)
        (forecastM idSqrt (fun _ _ _ => .error .malformedPeriod) ⟨demoParams, false⟩
          [⟨"2024-01", 1⟩, ⟨"2024-02", 2⟩] 2 none).2
        [⟨"2024-01", 1⟩, ⟨"2024-02", 2⟩] 2 none =
      forecastM idSqrt (fun _ _ _ => .error .malformedPeriod) ⟨demoParams, false⟩
        [⟨"2024-01", 1⟩, ⟨"2024-02", 2⟩] 2 none) :=
  ⟨rfl, forecast_stateless_deterministic idSqrt _ _ ⟨demoParams, false⟩
    [⟨"2024-01", 1⟩, ⟨"2024-02", 2⟩] 2 none rfl⟩

/-- C10: with `forecast_periods = 0` the fallback path raises no error
and returns empty forecast values and intervals, while still computing
the metrics from the in-sample fitted values of whichever fallback
branch ran. -/
theorem forecast_zero_horizon (S : ℚ → ℚ)
    (pf : List (ℕ × ℚ) → ℕ → ProphetParameters → Except ForecastError ForecastResult)
    (svc : ServiceState) (data : List HistoricalDataPoint)
    (ps : Option ProphetParameters) (df : List (ℕ × ℚ))
    (hfb : svc.use_prophet = false)
    (hdf : prepare_data data = .ok df) (h2 : 2 ≤ df.length) :
    (forecastM S pf svc data 0 ps).1 =
      .ok ([], [],
        some (calculateMetrics S (df.map Prod.snd)
          (if (df.map Prod.snd).length < hwSeasonLength (ps.getD svc.default_params)
           then (sesFit (hwAlpha (ps.getD svc.default_params)) (df.map Prod.snd)).2
           else (hwFitted (df.map Prod.snd) (ps.getD svc.default_params)).2))) := by
  unfold forecastM
  have hn2 : ¬ df.length < 2 := by omega
  simp only [hdf, hn2, if_false, hfb, Bool.false_eq_true]
  unfold forecastHoltWinters
  split_ifs with hbr
  · simp [simpleExponential, mkIntervals]
  · simp [holtWintersMain, mkIntervals, hwForecastValues]

/-- Witness for C10 at a concrete input. -/
theorem forecast_zero_horizon_witness :
    (ServiceState.mk demoParams false).use_prophet = false ∧
    prepare_data [⟨"2024-01", 1⟩, ⟨"2024-02", 2⟩] = .ok [(20240101, 1), (20240201, 2)] ∧
    2 ≤ ([(20240101, 1), (20240201, 2)] : List (ℕ × ℚ)).length ∧
    (forecastM idSqrt (fun _ _ _ => .error .malformedPeriod) ⟨demoParams, false⟩
        [⟨"2024-01", 1⟩, ⟨"2024-02", 2⟩] 0 none).1 =
      .ok ([], [],
        some (calculateMetrics idSqrt
          (([(20240101, 1), (20240201, 2)] : List (ℕ × ℚ)).map Prod.snd)
          (if (([(20240101, 1), (20240201, 2)] : List (ℕ × ℚ)).map Prod.snd).length <
              hwSeasonLength ((none : Option ProphetParameters).getD demoParams)
           then (sesFit (hwAlpha ((none : Option ProphetParameters).getD demoParams))
              (([(20240101, 1), (20240201, 2)] : List (ℕ × ℚ)).map Prod.snd)).2
           else (hwFitted (([(20240101, 1), (20240201, 2)] : List (ℕ × ℚ)).map Prod.snd)
              ((none : Option ProphetParameters).getD demoParams)).2))) :=
  ⟨rfl, by decide, by decide,
    forecast_zero_horizon idSqrt _ ⟨demoParams, false⟩ _ none _ rfl (by decide) (by decide)⟩

/-- Sorting the rows preserves their number. -/
theorem sortRows_length (rows : List (ℕ × ℚ)) : (sortRows rows).length = rows.length :=
  List.length_insertionSort rowLe rows

/-- The output of `sortRows` is sorted by the date key. -/
theorem sortRows_sorted (rows : List (ℕ × ℚ)) : (sortRows rows).Sorted rowLe :=
  List.sorted_insertionSort rowLe rows

/-- The row parser preserves the number of points. -/
theorem parseRows_length :
    ∀ (data : List HistoricalDataPoint) (rows : List (ℕ × ℚ)),
      parseRows data = some rows → rows.length = data.length := by
  intro data
  induction data with
  | nil => intro rows h; simp [parseRows] at h; simp [← h]
  | cons p rest ih =>
    intro rows h
    simp only [parseRows] at h
    rcases hp : parsePeriod p.month with _ | k
    · rw [hp] at h; simp at h
    · rw [hp] at h
      rcases hr : parseRows rest with _ | tl
      · rw [hr] at h; simp at h
      · rw [hr] at h
        simp only [Option.map] at h
        cases h
        simp [ih tl hr]

/-- When every period parses, the row parser succeeds. -/
theorem parseRows_total :
    ∀ (data : List HistoricalDataPoint),
      (∀ p ∈ data, (parsePeriod p.month).isSome) →
      ∃ rows, parseRows data = some rows := by
  intro data
  induction data with
  | nil => intro _; exact ⟨[], rfl⟩
  | cons p rest ih =>
    intro hval
    obtain ⟨tl, htl⟩ := ih (fun q hq => hval q (List.mem_cons_of_mem p hq))
    have hp := hval p (List.mem_cons_self p rest)
    rcases hk : parsePeriod p.month with _ | k
    · rw [hk] at hp; simp at hp
    · exact ⟨(k, p.quantity) :: tl, by simp [parseRows, hk, htl]⟩

/-- A successful `prepare_data` yields one row per input point. -/
theorem prepare_data_ok_length (data : List HistoricalDataPoint) (df : List (ℕ × ℚ))
    (h : prepare_data data = .ok df) : df.length = data.length := by
  unfold prepare_data at h
  rcases hr : parseRows data with _ | rows
  · rw [hr] at h; simp at h
  · rw [hr] at h
    cases h
    rw [sortRows_length]
    exact parseRows_length data rows hr

/-- C2: on the fallback path, with every period well-formed, `forecast`
fails with `InsufficientData` exactly when the series has fewer than 2
points; and a 2-point series with yearly seasonality enabled (season
length 12 > 2) succeeds via the simple-exponential-smoothing branch. -/
theorem forecast_insufficient_data_iff (S : ℚ → ℚ)
    (pf : List (ℕ × ℚ) → ℕ → ProphetParameters → Except ForecastError ForecastResult)
    (svc : ServiceState) (data : List HistoricalDataPoint) (periods : ℕ)
    (ps : Option ProphetParameters)
    (hfb : svc.use_prophet = false)
    (hval : ∀ p ∈ data, (parsePeriod p.month).isSome) :
    ((forecastM S pf svc data periods ps).1 = .error .insufficientData ↔ data.length < 2) ∧
    (∀ df, prepare_data data = .ok df → data.length = 2 →
      (ps.getD svc.default_params).yearly_seasonality = true →
      (forecastM S pf svc data periods ps).1 =
        .ok (simpleExponential S (df.map Prod.snd) periods
          (hwAlpha (ps.getD svc.default_params)) (ps.getD svc.default_params).interval_width)) := by
  obtain ⟨rows, hrows⟩ := parseRows_total data hval
  have hpd : prepare_data data = .ok (sortRows rows) := by
    unfold prepare_data; rw [hrows]
  have hlen : (sortRows rows).length = data.length := by
    rw [sortRows_length]; exact parseRows_length data rows hrows
  constructor
  · unfold forecastM
    simp only [hpd]
    by_cases h2 : (sortRows rows).length < 2
    · rw [if_pos h2]
      exact iff_of_true rfl (by omega)
    · rw [if_neg h2]
      simp only [hfb, Bool.false_eq_true, if_false]
      exact iff_of_false (by simp) (by omega)
  · intro df hdf h2 hy
    have hdfr : df = sortRows rows := by
      rw [hpd] at hdf; cases hdf; rfl
    subst hdfr
    unfold forecastM
    simp only [hpd]
    rw [if_neg (by omega)]
    simp only [hfb, Bool.false_eq_true, if_false]
    unfold forecastHoltWinters
    rw [if_pos]
    rw [List.length_map, hlen, h2, hwSeasonLength, hy]
    norm_num

/-- Witness for C2 at concrete inputs: a 1-point series fails with
`InsufficientData` and a 2-point series succeeds. -/
theorem forecast_insufficient_data_iff_witness :
    ((ServiceState.mk demoParams false).use_prophet = false ∧
     (∀ p ∈ [(⟨"2024-01", 4⟩ : HistoricalDataPoint)], (parsePeriod p.month).isSome) ∧
     ((forecastM idSqrt (fun _ _ _ => .error .malformedPeriod) ⟨demoParams, false⟩
        [⟨"2024-01", 4⟩] 3 none).1 = .error .insufficientData ↔
       ([(⟨"2024-01", 4⟩ : HistoricalDataPoint)]).length < 2)) ∧
    ((∀ p ∈ [(⟨"2024-01", 4⟩ : HistoricalDataPoint), ⟨"2024-02", 6⟩],
        (parsePeriod p.month).isSome) ∧
     (forecastM idSqrt (fun _ _ _ => .error .malformedPeriod) ⟨demoParams, false⟩
        [⟨"2024-01", 4⟩, ⟨"2024-02", 6⟩] 3 none).1 =
      .ok (simpleExponential idSqrt ([(20240101, 4), (20240201, 6)].map Prod.snd) 3
        (hwAlpha demoParams) demoParams.interval_width)) :=
  ⟨⟨rfl, by decide,
    (forecast_insufficient_data_iff idSqrt _ ⟨demoParams, false⟩ [⟨"2024-01", 4⟩] 3 none
      rfl (by decide)).1⟩,
   ⟨by decide,
    (forecast_insufficient_data_iff idSqrt _ ⟨demoParams, false⟩
      [⟨"2024-01", 4⟩, ⟨"2024-02", 6⟩] 3 none rfl (by decide)).2
      [(20240101, 4), (20240201, 6)] (by decide) (by decide) (by decide)⟩⟩

/-- C3 counterexample: the full-date form `"2024-01-01"` is NOT
accepted by `prepare_data` — appending `"-01"` makes the first format
fail, and the string does not match `"%Y-%m"` either, so the claim that
the series builder accepts the full-date form is false. -/
theorem prepare_data_full_date_rejected :
    prepare_data [⟨"2024-01-01", 5⟩] = .error .malformedPeriod := by decide

/-- C3 (amended): `prepare_data` accepts the `"YYYY-MM"` period form
and produces a series sorted ascending by period, and fails with
`MalformedPeriod` both on a string matching neither format (such as
`"not-a-date"`) and on the full-date `"YYYY-MM-01"` form. -/
theorem prepare_data_contract (data : List HistoricalDataPoint)
    (hval : ∀ p ∈ data, (parsePeriod p.month).isSome) :
    (∃ df, prepare_data data = .ok df ∧ df.Sorted rowLe ∧ df.length = data.length) ∧
    prepare_data [⟨"2024-01", 5⟩] = .ok [(20240101, 5)] ∧
    prepare_data [⟨"2024-03", 2⟩, ⟨"2024-01", 7⟩] = .ok [(20240101, 7), (20240301, 2)] ∧
    prepare_data [⟨"not-a-date", 5⟩] = .error .malformedPeriod ∧
    prepare_data [⟨"2024-01-01", 5⟩] = .error .malformedPeriod := by
  refine ⟨?_, by decide, by decide, by decide, by decide⟩
  obtain ⟨rows, hrows⟩ := parseRows_total data hval
  refine ⟨sortRows rows, by unfold prepare_data; rw [hrows], sortRows_sorted rows, ?_⟩
  rw [sortRows_length]
  exact parseRows_length data rows hrows

/-- Witness for C3 at a concrete input. -/
theorem prepare_data_contract_witness :
    (∀ p ∈ [(⟨"2024-03", 2⟩ : HistoricalDataPoint), ⟨"2024-01", 7⟩],
      (parsePeriod p.month).isSome) ∧
    ((∃ df, prepare_data [⟨"2024-03", 2⟩, ⟨"2024-01", 7⟩] = .ok df ∧
        df.Sorted rowLe ∧ df.length = 2) ∧
     prepare_data [⟨"2024-01", 5⟩] = .ok [(20240101, 5)] ∧
     prepare_data [⟨"2024-03", 2⟩, ⟨"2024-01", 7⟩] = .ok [(20240101, 7), (20240301, 2)] ∧
     prepare_data [⟨"not-a-date", 5⟩] = .error .malformedPeriod ∧
     prepare_data [⟨"2024-01-01", 5⟩] = .error .malformedPeriod) :=
  ⟨by decide, prepare_data_contract [⟨"2024-03", 2⟩, ⟨"2024-01", 7⟩] (by decide)⟩

/-- The trend initialization as C5's sentence describes it: the
two-season formula only when at least two FULL seasons exist
(`2L ≤ n`), the simple slope otherwise.  Stated for comparison with the
source's `hwTrendInit`. -/
def claimTrendInit (values : List ℚ) (L : ℕ) (growth : String) : ℚ :=
  if growth = "flat" then 0
  else if 2 * L ≤ values.length then
    (listMean ((values.drop L).take L) - listMean (values.take L)) / (L : ℚ)
  else (values.getLastD 0 - values.headD 0) / ((max 1 (values.length - 1) : ℕ) : ℚ)

/-- C5 counterexample: with season length 12 and 13 points (more than
one season but fewer than two full seasons) the code computes the
difference of the first-season mean and the PARTIAL second-season mean
divided by the season length, not the simple slope the claim requires:
`(12 - 5.5)/12 = 13/24`, whereas the claimed value is `(12 - 0)/12 = 1`. -/
theorem trend_init_counterexample :
    hwTrendInit [0, 1, 2, 3, 4, 5, 6, 7, 8, 9, 10, 11, 12] 12 "linear" = 13/24 ∧
    claimTrendInit [0, 1, 2, 3, 4, 5, 6, 7, 8, 9, 10, 11, 12] 12 "linear" = 1 ∧
    (13/24 : ℚ) ≠ 1 :=
  ⟨by
    have h : ¬ "linear" = "flat" := by decide
    norm_num [hwTrendInit, listMean, h],
   by
    have h : ¬ "linear" = "flat" := by decide
    norm_num [claimTrendInit, listMean, h],
   by norm_num⟩

/-- C5 (amended): with growth not flat, the initial trend is the
difference between the mean of `values[L : min(2L, n)]` — the second
season, possibly PARTIAL — and the mean of the first season, divided by
the season length, whenever `n > L`; only when `n ≤ L` is the simple
slope `(last - first)/max(1, n-1)` used. -/
theorem trend_init_partial_second_season (values : List ℚ) (L : ℕ) (growth : String)
    (hg : growth ≠ "flat") (hL : 0 < L) :
    hwTrendInit values L growth =
      if L < values.length then
        (((values.drop L).take (min (2 * L) values.length - L)).sum /
            ((min (2 * L) values.length - L : ℕ) : ℚ) -
          (values.take L).sum / ((L : ℕ) : ℚ)) / (L : ℚ)
      else (values.getLastD 0 - values.headD 0) / ((max 1 (values.length - 1) : ℕ) : ℚ) := by
  unfold hwTrendInit
  rw [if_neg hg]
  split_ifs with h
  · have h1 : ((values.drop L).take (min (2 * L) values.length - L)).length =
        min (2 * L) values.length - L := by
      rw [List.length_take, List.length_drop]
      omega
    have h2 : (values.take L).length = L := by
      rw [List.length_take]
      omega
    unfold listMean
    rw [h1, h2]
  · rfl

/-- Witness for C5 (amended) at a concrete input. -/
theorem trend_init_partial_second_season_witness :
    ("linear" ≠ "flat") ∧ 0 < 12 ∧
    (hwTrendInit [0, 1, 2, 3, 4, 5, 6, 7, 8, 9, 10, 11, 12] 12 "linear" =
      if 12 < ([0, 1, 2, 3, 4, 5, 6, 7, 8, 9, 10, 11, 12] : List ℚ).length then
        ((([0, 1, 2, 3, 4, 5, 6, 7, 8, 9, 10, 11, 12] : List ℚ).drop 12
            |>.take (min (2 * 12) ([0, 1, 2, 3, 4, 5, 6, 7, 8, 9, 10, 11, 12] : List ℚ).length - 12)).sum /
            ((min (2 * 12) ([0, 1, 2, 3, 4, 5, 6, 7, 8, 9, 10, 11, 12] : List ℚ).length - 12 : ℕ) : ℚ) -
          (([0, 1, 2, 3, 4, 5, 6, 7, 8, 9, 10, 11, 12] : List ℚ).take 12).sum / ((12 : ℕ) : ℚ)) / (12 : ℚ)
      else ((([0, 1, 2, 3, 4, 5, 6, 7, 8, 9, 10, 11, 12] : List ℚ).getLastD 0 -
          ([0, 1, 2, 3, 4, 5, 6, 7, 8, 9, 10, 11, 12] : List ℚ).headD 0) /
          ((max 1 (([0, 1, 2, 3, 4, 5, 6, 7, 8, 9, 10, 11, 12] : List ℚ).length - 1) : ℕ) : ℚ))) :=
  ⟨by simp, by decide,
    trend_init_partial_second_season [0, 1, 2, 3, 4, 5, 6, 7, 8, 9, 10, 11, 12] 12 "linear"
      (by simp) (by decide)⟩

/-- Parameter set used in the C6 counterexample: yearly seasonality
disabled, multiplicative mode, flat growth, `alpha = 0.8`. -/
def noSeasonParams : ProphetParameters := ⟨"flat", "multiplicative", false, false, 3/5, 10, 19/20⟩

/-- C6 counterexample: with yearly seasonality disabled (season length
1) and history `[1, 3]`, the single seasonal factor does NOT stay
neutral: the fitting loop updates it like any seasonal factor and it
ends at `67/65 ≠ 1`, so fitted and forecast values do not reduce to the
level-and-trend components alone. -/
theorem season_length_one_counterexample :
    (hwFitted [1, 3] noSeasonParams).1.seasonal_factors = [67/65] ∧
    ([67/65] : List ℚ) ≠ [1] := by
  constructor
  · have h0 : phaseIndices 0 2 1 = [0, 1] := by decide
    have h1 : List.range 1 = [0] := by decide
    have hia : hwIsAdd noSeasonParams = false := by decide
    norm_num +decide [hwFitted, hwFitLoop, hwFitStep, hwSeasonLength, hwAlpha, hwLevelInit,
      hwTrendInit, hwSeasonalInit, noSeasonParams, hia, h0, h1, listMean]
  · intro h
    rw [List.cons.injEq] at h
    norm_num at h

/-- Every index below the length is a phase index for season length 1. -/
theorem phaseIndices_zero_one (n : ℕ) : phaseIndices 0 n 1 = List.range n := by
  unfold phaseIndices
  apply List.filter_eq_self.mpr
  intro j _
  simp [Nat.mod_one]

/-- Reading every position of a list in order reproduces the list. -/
theorem map_getD_range (values : List ℚ) :
    (List.range values.length).map (fun j => values.getD j 0) = values := by
  apply List.ext_getElem (by simp)
  intro i h1 h2
  simp only [List.getElem_map, List.getElem_range]
  rw [List.getD_eq_getElem?_getD, List.getElem?_eq_getElem h2]
  rfl

/-- C6 (amended): with yearly seasonality disabled the season length is
1, and for a nonempty nonnegative series the single seasonal factor is
INITIALIZED to 1 (neutral); during fitting it is then updated each step
like any seasonal factor, so it need not remain 1 (see the
counterexample). -/
theorem season_length_one_neutral_init (params : ProphetParameters) (values : List ℚ)
    (hy : params.yearly_seasonality = false) (hne : values ≠ [])
    (hnn : ∀ v ∈ values, 0 ≤ v) :
    hwSeasonLength params = 1 ∧ hwSeasonalInit values 1 = [1] := by
  refine ⟨by simp [hwSeasonLength, hy], ?_⟩
  obtain ⟨v, vs, rfl⟩ := List.exists_cons_of_ne_nil hne
  have hr1 : List.range 1 = [0] := by decide
  have hrn : (List.range (v :: vs).length = []) = False := by
    simp [List.range_eq_nil]
  have hlev : hwLevelInit (v :: vs) 1 = v := by
    simp [hwLevelInit, listMean]
  unfold hwSeasonalInit
  simp only [hr1, List.map_cons, List.map_nil, List.isEmpty_iff,
    phaseIndices_zero_one, map_getD_range, hlev, hrn, if_false]
  by_cases hv : v > 0
  · rw [if_pos hv]
    have hsum : 0 < (v :: vs).sum := by
      have : 0 ≤ vs.sum := List.sum_nonneg (fun x hx => hnn x (List.mem_cons_of_mem v hx))
      simp only [List.sum_cons]
      linarith
    have hm : 0 < listMean (v :: vs) := by
      unfold listMean
      apply div_pos hsum
      have : (v :: vs).length ≠ 0 := by simp
      exact_mod_cast Nat.pos_of_ne_zero this
    have hr : 0 < listMean (v :: vs) / v := by positivity
    have havg : listMean [listMean (v :: vs) / v] = listMean (v :: vs) / v := by
      simp [listMean]
    rw [havg, if_pos hr]
    rw [div_self (ne_of_gt hr)]
  · rw [if_neg hv]
    have havg : listMean [(1 : ℚ)] = 1 := by simp [listMean]
    rw [havg, if_pos one_pos, div_one]

/-- Witness for C6 (amended) at a concrete input. -/
theorem season_length_one_neutral_init_witness :
    noSeasonParams.yearly_seasonality = false ∧ ([1, 3] : List ℚ) ≠ [] ∧
    (∀ v ∈ ([1, 3] : List ℚ), 0 ≤ v) ∧
    (hwSeasonLength noSeasonParams = 1 ∧ hwSeasonalInit [1, 3] 1 = [1]) :=
  ⟨rfl, by simp, by norm_num,
    season_length_one_neutral_init noSeasonParams [1, 3] rfl (by simp) (by norm_num)⟩

/-- Positions of the truncated prediction list agree with the original
below the truncation point. -/
theorem getD_take_eq (l : List ℚ) (n i : ℕ) (hi : i < n) :
    (l.take n).getD i 0 = l.getD i 0 := by
  rw [List.getD_eq_getElem?_getD, List.getD_eq_getElem?_getD, List.getElem?_take, if_pos hi]

/-- The nonzero-actual pairs are unchanged when predictions are altered
only at positions whose actual value is zero. -/
theorem zip_filter_nonzero_congr :
    ∀ (y p q : List ℚ), y.length ≤ p.length → y.length ≤ q.length →
      (∀ i, i < y.length → y.getD i 0 ≠ 0 → p.getD i 0 = q.getD i 0) →
      (y.zip p).filter (fun r => r.1 ≠ 0) = (y.zip q).filter (fun r => r.1 ≠ 0) := by
  intro y
  induction y with
  | nil => intro p q _ _ _; simp
  | cons a ys ih =>
    intro p q hp hq hagree
    rcases p with _ | ⟨b, ps⟩
    · simp at hp
    rcases q with _ | ⟨c, qs⟩
    · simp at hq
    have hrest : (ys.zip ps).filter (fun r => r.1 ≠ 0) =
        (ys.zip qs).filter (fun r => r.1 ≠ 0) := by
      refine ih ps qs (by simpa using hp) (by simpa using hq) ?_
      intro i hi hne
      have := hagree (i + 1) (by simpa using Nat.succ_lt_succ hi)
        (by simpa [List.getD_cons_succ] using hne)
      simpa [List.getD_cons_succ] using this
    by_cases ha : a = 0
    · subst ha
      simp only [List.zip_cons_cons, List.filter_cons]
      norm_num
      norm_num at hrest
      exact hrest
    · have hb : b = c := by
        have := hagree 0 (by simp) (by simpa [List.getD_cons_zero] using ha)
        simpa [List.getD_cons_zero] using this
      simp only [List.zip_cons_cons, List.filter_cons, hb]
      rw [hrest]

/-- C8: the metrics calculator reports MAPE as absent exactly when
every in-sample actual is 0; MAPE depends only on the predictions at
nonzero actuals; MAE and RMSE are always nonnegative (and, being
rationals in the model, finite). -/
theorem calculate_metrics_contract (S : ℚ → ℚ) (hS : ∀ x, 0 ≤ x → 0 ≤ S x)
    (y p q : List ℚ) (hp : y.length ≤ p.length) (hq : y.length ≤ q.length)
    (hagree : ∀ i, i < y.length → y.getD i 0 ≠ 0 → p.getD i 0 = q.getD i 0) :
    ((calculateMetrics S y p).mape = none ↔ ∀ a ∈ y, a = 0) ∧
    0 ≤ (calculateMetrics S y p).mae ∧
    0 ≤ (calculateMetrics S y p).rmse ∧
    (calculateMetrics S y p).mape = (calculateMetrics S y q).mape := by
  have htlen : (p.take y.length).length = y.length := by
    rw [List.length_take]; omega
  refine ⟨?_, ?_, ?_, ?_⟩
  · simp only [calculateMetrics]
    split_ifs with hempty
    · simp only [true_iff]
      rw [List.isEmpty_iff, List.filter_eq_nil] at hempty
      intro a ha
      have hmem : a ∈ (y.zip (p.take y.length)).map Prod.fst := by
        rw [List.map_fst_zip _ _ (by omega)]
        exact ha
      obtain ⟨r, hr, rfl⟩ := List.mem_map.mp hmem
      have := hempty r hr
      simpa using this
    · simp only [false_iff]
      intro hall
      rw [List.isEmpty_iff, List.filter_eq_nil] at hempty
      apply hempty
      intro r hr
      have : r.1 ∈ y := (List.of_mem_zip hr).1
      simpa using hall r.1 this
  · apply listMean_nonneg
    intro x hx
    obtain ⟨r, _, rfl⟩ := List.mem_map.mp hx
    exact abs_nonneg _
  · apply hS
    apply listMean_nonneg
    intro x hx
    obtain ⟨r, _, rfl⟩ := List.mem_map.mp hx
    positivity
  · simp only [calculateMetrics]
    have hcongr : (y.zip (p.take y.length)).filter (fun r => r.1 ≠ 0) =
        (y.zip (q.take y.length)).filter (fun r => r.1 ≠ 0) := by
      apply zip_filter_nonzero_congr y (p.take y.length) (q.take y.length)
        (by omega) (by rw [List.length_take]; omega)
      intro i hi hne
      rw [getD_take_eq p y.length i hi, getD_take_eq q y.length i hi]
      exact hagree i hi hne
    rw [hcongr]

/-- Witness for C8 at a concrete input. -/
theorem calculate_metrics_contract_witness :
    (∀ x : ℚ, 0 ≤ x → 0 ≤ idSqrt x) ∧
    ([(0 : ℚ), 2].length ≤ [(5 : ℚ), 3].length) ∧
    ([(0 : ℚ), 2].length ≤ [(7 : ℚ), 3].length) ∧
    (∀ i, i < [(0 : ℚ), 2].length → [(0 : ℚ), 2].getD i 0 ≠ 0 →
      [(5 : ℚ), 3].getD i 0 = [(7 : ℚ), 3].getD i 0) ∧
    (((calculateMetrics idSqrt [0, 2] [5, 3]).mape = none ↔ ∀ a ∈ [(0 : ℚ), 2], a = 0) ∧
     0 ≤ (calculateMetrics idSqrt [0, 2] [5, 3]).mae ∧
     0 ≤ (calculateMetrics idSqrt [0, 2] [5, 3]).rmse ∧
     (calculateMetrics idSqrt [0, 2] [5, 3]).mape = (calculateMetrics idSqrt [0, 2] [7, 3]).mape) :=
  ⟨fun _ h => h, by simp, by simp,
   by
    intro i hi hne
    have hi2 : i < 2 := by simpa using hi
    interval_cases i <;> simp_all,
   calculate_metrics_contract idSqrt (fun _ h => h) [0, 2] [5, 3] [7, 3] (by simp) (by simp)
     (by
      intro i hi hne
      have hi2 : i < 2 := by simpa using hi
      interval_cases i <;> simp_all)⟩

/-- Parameter set used in the C4 counterexample: a constant series with
yearly seasonality and flat growth, but additive seasonality mode. -/
def addConstParams : ProphetParameters := ⟨"flat", "additive", true, false, 4/5, 10, 19/20⟩

set_option maxRecDepth 8000 in
/-- C4 counterexample: on the constant series of twelve values of 100
with `yearly_seasonality = True` and `growth = "flat"` but additive
seasonality mode, the Holt-Winters fallback does NOT forecast 100 (±1)
at every horizon step: the additive mode adds the ratio-style seasonal
factors (≈1) instead of a neutral 0, the level and trend drift during
fitting, and at horizon step 100 the forecast is 97 ∉ {99, 100, 101}. -/
theorem hw_constant_additive_counterexample :
    (forecastHoltWinters idSqrt [100, 100, 100, 100, 100, 100, 100, 100, 100, 100, 100, 100]
        100 addConstParams).1.getD 99 0 = 97 ∧
    ¬((99 : ℤ) ≤ 97 ∧ (97 : ℤ) ≤ 101) := by
  refine ⟨?_, by omega⟩
  have hfit : (hwFitted [100, 100, 100, 100, 100, 100, 100, 100, 100, 100, 100, 100]
      addConstParams).1 =
      ⟨1180061755469838772/11920928955078125, -1920557971173744/59604644775390625,
       [24/25, 622/625, 15666/15625, 392148/390625, 9803144/9765625, 245000782/244140625,
        6122910146/6103515625, 153023417588/152587890625, 3824467705464/3814697265625,
        95586563085742/95367431640625, 2389100166499026/2384185791015625,
        59714855858286228/59604644775390625]⟩ := by
    have ha : hwAlpha addConstParams = 4/5 := by norm_num [hwAlpha, addConstParams]
    have hL : hwSeasonLength addConstParams = 12 := by decide
    have hia : hwIsAdd addConstParams = true := by decide
    have hlev : hwLevelInit [100, 100, 100, 100, 100, 100, 100, 100, 100, 100, 100, 100] 12
        = 100 := by
      norm_num [hwLevelInit, listMean]
    have hsf : hwSeasonalInit [100, 100, 100, 100, 100, 100, 100, 100, 100, 100, 100, 100] 12 =
        [1, 1, 1, 1, 1, 1, 1, 1, 1, 1, 1, 1] := by
      have h1 : List.range 12 = [0, 1, 2, 3, 4, 5, 6, 7, 8, 9, 10, 11] := by decide
      have hp : ∀ i ∈ List.range 12, phaseIndices i 12 12 = [i] := by decide
      norm_num +decide [hwSeasonalInit, hlev, h1, listMean,
        hp 0 (by decide), hp 1 (by decide), hp 2 (by decide), hp 3 (by decide),
        hp 4 (by decide), hp 5 (by decide), hp 6 (by decide), hp 7 (by decide),
        hp 8 (by decide), hp 9 (by decide), hp 10 (by decide), hp 11 (by decide)]
    have htr : hwTrendInit [100, 100, 100, 100, 100, 100, 100, 100, 100, 100, 100, 100] 12
        "flat" = 0 := by
      norm_num [hwTrendInit]
    have hg : addConstParams.growth = "flat" := rfl
    rw [hwFitted]
    norm_num +decide [hL, ha, hia, hg, hlev, htr, hsf, hwFitLoop, hwFitStep]
  have hia : hwIsAdd addConstParams = true := by decide
  have hL : hwSeasonLength addConstParams = 12 := by decide
  have hnot : ¬ ([100, 100, 100, 100, 100, 100, 100, 100, 100, 100, 100, 100] :
      List ℚ).length < hwSeasonLength addConstParams := by
    rw [hL]; simp
  unfold forecastHoltWinters
  rw [if_neg hnot]
  show (hwForecastValues (hwIsAdd addConstParams)
    (hwFitted [100, 100, 100, 100, 100, 100, 100, 100, 100, 100, 100, 100] addConstParams).1
    ([100, 100, 100, 100, 100, 100, 100, 100, 100, 100, 100, 100] : List ℚ).length
    (hwSeasonLength addConstParams) 100).getD 99 0 = 97
  have hlen : ([100, 100, 100, 100, 100, 100, 100, 100, 100, 100, 100, 100] :
      List ℚ).length = 12 := by simp
  rw [hfit, hia, hL, hlen]
  unfold hwForecastValues
  rw [List.getD_eq_getElem?_getD, List.getElem?_map,
    List.getElem?_range (by norm_num : (99 : ℕ) < 100)]
  simp only [Option.map_some', Option.getD_some]
  norm_num
  norm_num [pyRound]

/-- Reading any position of a replicated list below its length yields
the replicated value. -/
theorem getD_replicate_of_lt {a : ℚ} {n i : ℕ} (h : i < n) :
    (List.replicate n a).getD i 0 = a := by
  rw [List.getD_eq_getElem?_getD, List.getElem?_replicate, if_pos h]
  rfl

/-- Overwriting a position of a replicated list with the replicated
value changes nothing. -/
theorem set_replicate_self_q : ∀ (n i : ℕ) (a : ℚ),
    (List.replicate n a).set i a = List.replicate n a := by
  intro n
  induction n with
  | zero => intro i a; rfl
  | succ m ih =>
    intro i a
    cases i with
    | zero => rfl
    | succ j =>
      rw [List.replicate_succ, List.set_cons_succ, ih]

/-- On a constant series of 100s in multiplicative mode, one fitting
step leaves the state `(level 100, trend 0, all seasonal factors 1)`
unchanged, for every level coefficient. -/
theorem hwFitStep_const_mul (alpha : ℚ) (i : ℕ) :
    hwFitStep false alpha (1/10) (1/5) 12 ⟨100, 0, List.replicate 12 1⟩ i 100 =
      (⟨100, 0, List.replicate 12 1⟩, 100) := by
  have hidx : i % 12 < 12 := Nat.mod_lt i (by norm_num)
  have hsfi : (List.replicate 12 (1:ℚ)).getD (i % 12) 0 = 1 := getD_replicate_of_lt hidx
  unfold hwFitStep
  simp only [hsfi]
  have hcond1 : (¬ (false = true) ∧ (1:ℚ) > 0) := by norm_num
  rw [if_pos hcond1]
  have hlv : alpha * ((100:ℚ) / 1) + (1 - alpha) * (100 + 0) = 100 := by ring
  rw [hlv]
  have hcond2 : (¬ (false = true) ∧ (100:ℚ) > 0) := by norm_num
  rw [if_pos hcond2]
  have hsn : (1:ℚ)/5 * (100 / 100) + (1 - 1/5) * 1 = 1 := by norm_num
  rw [hsn, set_replicate_self_q]
  norm_num

/-- On a constant series of 100s in multiplicative mode, the whole
fitting loop leaves the state unchanged, for every level coefficient
and starting index. -/
theorem hwFitLoop_const_mul (alpha : ℚ) :
    ∀ (l : List ℚ) (i : ℕ), (∀ x ∈ l, x = 100) →
      (hwFitLoop false alpha (1/10) (1/5) 12 i l ⟨100, 0, List.replicate 12 1⟩).1 =
        ⟨100, 0, List.replicate 12 1⟩ := by
  intro l
  induction l with
  | nil => intro i _; rfl
  | cons v rest ih =>
    intro i hmem
    have hv : v = 100 := hmem v (List.mem_cons_self v rest)
    subst hv
    show (hwFitLoop false alpha (1/10) (1/5) 12 i (100 :: rest) ⟨100, 0, List.replicate 12 1⟩).1 = _
    unfold hwFitLoop
    rw [hwFitStep_const_mul alpha i]
    exact ih (i + 1) (fun x hx => hmem x (List.mem_cons_of_mem 100 hx))

/-- The seasonal-factor initialization of the constant 100 series with
season length 12 is the neutral all-ones vector. -/
theorem hwSeasonalInit_const100 :
    hwSeasonalInit (List.replicate 12 100) 12 = List.replicate 12 (1:ℚ) := by
  have hrep : List.replicate 12 (100:ℚ) = [100, 100, 100, 100, 100, 100, 100, 100, 100, 100, 100, 100] := by
    decide
  have hrep1 : List.replicate 12 (1:ℚ) = [1, 1, 1, 1, 1, 1, 1, 1, 1, 1, 1, 1] := by decide
  rw [hrep, hrep1]
  have hlev : hwLevelInit [100, 100, 100, 100, 100, 100, 100, 100, 100, 100, 100, 100] 12
      = 100 := by
    norm_num [hwLevelInit, listMean]
  have h1 : List.range 12 = [0, 1, 2, 3, 4, 5, 6, 7, 8, 9, 10, 11] := by decide
  have hp : ∀ i ∈ List.range 12, phaseIndices i 12 12 = [i] := by decide
  norm_num +decide [hwSeasonalInit, hlev, h1, listMean,
    hp 0 (by decide), hp 1 (by decide), hp 2 (by decide), hp 3 (by decide),
    hp 4 (by decide), hp 5 (by decide), hp 6 (by decide), hp 7 (by decide),
    hp 8 (by decide), hp 9 (by decide), hp 10 (by decide), hp 11 (by decide)]

/-- The fitted state of the constant 100 series under flat growth,
yearly seasonality and multiplicative mode: level 100, trend exactly 0,
seasonal factors exactly 1, for every changepoint prior scale. -/
theorem hwFitted_const_mul (params : ProphetParameters)
    (hg : params.growth = "flat") (hy : params.yearly_seasonality = true)
    (hm : params.seasonality_mode = "multiplicative") :
    (hwFitted (List.replicate 12 100) params).1 = ⟨100, 0, List.replicate 12 1⟩ := by
  have hia : hwIsAdd params = false := by
    rw [hwIsAdd, hm]; decide
  have hL : hwSeasonLength params = 12 := by rw [hwSeasonLength, hy]; rfl
  have hlev : hwLevelInit (List.replicate 12 100) 12 = 100 := by
    rw [hwLevelInit, List.take_replicate]
    norm_num [listMean, List.sum_replicate]
  have htr : hwTrendInit (List.replicate 12 100) 12 params.growth = 0 := by
    rw [hg, hwTrendInit, if_pos rfl]
  rw [hwFitted, hia, hL, hlev, htr, hwSeasonalInit_const100]
  exact hwFitLoop_const_mul (hwAlpha params) (List.replicate 12 100) 0
    (fun x hx => List.eq_of_mem_replicate hx)

/-- C4 (amended): for the constant series of twelve values of 100 with
`yearly_seasonality = True`, `growth = "flat"` and MULTIPLICATIVE
seasonality mode, the Holt-Winters fallback forecasts exactly 100
(hence within ±1) at every horizon step, with trend exactly 0 and every
seasonal factor exactly 1 at the end of fitting, for every changepoint
prior scale.  (In additive mode the claim fails at large horizons: see
the counterexample.) -/
theorem hw_constant_series_multiplicative (S : ℚ → ℚ) (periods : ℕ)
    (params : ProphetParameters)
    (hg : params.growth = "flat") (hy : params.yearly_seasonality = true)
    (hm : params.seasonality_mode = "multiplicative") :
    (hwFitted (List.replicate 12 100) params).1.trend = 0 ∧
    (hwFitted (List.replicate 12 100) params).1.seasonal_factors = List.replicate 12 1 ∧
    (forecastHoltWinters S (List.replicate 12 100) periods params).1 =
      List.replicate periods 100 := by
  have hfit := hwFitted_const_mul params hg hy hm
  have hia : hwIsAdd params = false := by
    rw [hwIsAdd, hm]; decide
  have hL : hwSeasonLength params = 12 := by rw [hwSeasonLength, hy]; rfl
  refine ⟨by rw [hfit], by rw [hfit], ?_⟩
  have hnot : ¬ (List.replicate 12 (100:ℚ)).length < hwSeasonLength params := by
    rw [hL, List.length_replicate]
    omega
  unfold forecastHoltWinters
  rw [if_neg hnot]
  show (hwForecastValues (hwIsAdd params) (hwFitted (List.replicate 12 100) params).1
    (List.replicate 12 (100:ℚ)).length (hwSeasonLength params) periods) =
    List.replicate periods 100
  rw [hfit, hia, hL, List.length_replicate]
  unfold hwForecastValues
  apply List.eq_replicate.mpr
  refine ⟨by simp, ?_⟩
  intro b hb
  obtain ⟨i, _, rfl⟩ := List.mem_map.mp hb
  have hidx : (12 + i) % 12 < 12 := Nat.mod_lt _ (by norm_num)
  have hsfi : (List.replicate 12 (1:ℚ)).getD ((12 + i) % 12) 0 = 1 :=
    getD_replicate_of_lt hidx
  simp only [hsfi]
  have hfc : ((100:ℚ) + 0 * ((i + 1 : ℕ) : ℚ)) * 1 = 100 := by ring
  rw [if_neg (by norm_num), hfc]
  have h100 : pyRound 100 = 100 := by norm_num [pyRound]
  rw [h100]
  rfl

/-- Parameter set for the C4 (amended) witness. -/
def mulConstParams : ProphetParameters := ⟨"flat", "multiplicative", true, false, 1/20, 10, 19/20⟩

/-- Witness for C4 (amended) at a concrete input. -/
theorem hw_constant_series_multiplicative_witness :
    mulConstParams.growth = "flat" ∧ mulConstParams.yearly_seasonality = true ∧
    mulConstParams.seasonality_mode = "multiplicative" ∧
    ((hwFitted (List.replicate 12 100) mulConstParams).1.trend = 0 ∧
     (hwFitted (List.replicate 12 100) mulConstParams).1.seasonal_factors =
       List.replicate 12 1 ∧
     (forecastHoltWinters idSqrt (List.replicate 12 100) 3 mulConstParams).1 =
       List.replicate 3 100) :=
  ⟨rfl, rfl, rfl,
    hw_constant_series_multiplicative idSqrt 3 mulConstParams rfl rfl rfl⟩
